import Mathlib

/-!
Verification of the onboarding-form component (src/components/OnboardingForm.tsx).

Strings of the JavaScript source are modelled as lists of characters
(`Str := List Char`).  The phone formatter, the submit handler with its three
validation checks, and the field-edit state machine are embedded as pure
functions; the asynchronous submission step is parametrised by a boolean
saying whether it throws.
-/

abbrev Str := List Char

/-- Embeds `value.replace(/\D/g, '')` from `formatPhoneNumber`: keep only the
decimal digits of the input. -/
def extractDigits (value : Str) : Str :=
  value.filter Char.isDigit

/-- Embeds the branch structure of `formatPhoneNumber` applied to the already
stripped digit sequence `numbers` (the local constant of the source). -/
def formatDigits (numbers : Str) : Str :=
  if numbers.length ≤ 2 then
    ['+', '5', '5', ' '] ++ numbers
  else if numbers.length ≤ 4 then
    ['+', '5', '5', ' ', '('] ++ numbers.drop 2 ++ [')']
  else if numbers.length ≤ 9 then
    ['+', '5', '5', ' ', '('] ++ (numbers.drop 2).take 2 ++ [')', ' '] ++ numbers.drop 4
  else
    ['+', '5', '5', ' ', '('] ++ (numbers.drop 2).take 2 ++ [')', ' ']
      ++ (numbers.drop 4).take 5 ++ ['-'] ++ (numbers.drop 9).take 4

/-- Embeds `formatPhoneNumber` (lines 32 to 46 of the source): strip the
non-digit characters, then render the canonical pattern. -/
def formatPhoneNumber (value : Str) : Str :=
  formatDigits (extractDigits value)

/-- Embeds JavaScript `String.prototype.trim`: remove leading and trailing
whitespace. -/
def trimStr (s : Str) : Str :=
  ((s.dropWhile Char.isWhitespace).reverse.dropWhile Char.isWhitespace).reverse

/-- The three form fields held in the `formData` state (lines 9 to 13). -/
structure FormData where
  fullName : Str
  phoneNumber : Str
  password : Str
deriving Repr, DecidableEq

/-- Embeds the initial `useState` value of `formData` (lines 16 to 20). -/
def initialFormData : FormData := ⟨[], [], []⟩

/-- A toast notification as passed to the `toast` collaborator. -/
structure Toast where
  title : String
  description : String
  destructive : Bool
deriving Repr, DecidableEq

/-- Toast emitted when the full-name check fails (lines 59 to 63). -/
def toastEmptyName : Toast :=
  ⟨"Erro", "Por favor, preencha seu nome completo.", true⟩

/-- Toast emitted when the phone check fails (lines 69 to 73). -/
def toastInvalidPhone : Toast :=
  ⟨"Erro", "Por favor, preencha um número de telefone válido.", true⟩

/-- Toast emitted when the password check fails (lines 79 to 83). -/
def toastWeakPassword : Toast :=
  ⟨"Erro", "A senha deve ter pelo menos 6 caracteres.", true⟩

/-- Toast emitted on successful submission (lines 93 to 96). -/
def toastSuccess : Toast :=
  ⟨"Sucesso!", "Cadastro realizado com sucesso. Você receberá as instruções de acesso em breve.", false⟩

/-- Toast emitted in the catch block when the submission step throws
(lines 105 to 109). -/
def toastSubmitError : Toast :=
  ⟨"Erro", "Ocorreu um erro ao processar seu cadastro. Tente novamente.", true⟩

/-- The distinguishable outcomes of one run of `handleSubmit`. -/
inductive SubmitResult where
  | validationEmptyName
  | validationInvalidPhone
  | validationWeakPassword
  | failed
  | success
deriving Repr, DecidableEq

/-- The observable outcome of one run of `handleSubmit`: the `formData` state
when the handler returns, the `isLoading` flag when it returns, the toast it
emitted, whether control reached the try block that performs the simulated
submission, and which exit path was taken. -/
structure SubmitOutcome where
  formData : FormData
  isLoading : Bool
  toast : Toast
  reachedSubmission : Bool
  result : SubmitResult
deriving Repr, DecidableEq

/-- Embeds `handleSubmit` (lines 53 to 113).  The three validation checks run
in source order and each early return leaves the fields untouched and resets
`isLoading` to false.  The asynchronous submission step is abstracted by
`submitThrows`: false means the awaited promise resolves (the success branch
runs and resets the form), true means it throws (the catch branch runs and the
fields are preserved).  The finally block makes `isLoading` false on every
path. -/
def handleSubmit (fd : FormData) (submitThrows : Bool) : SubmitOutcome :=
  if (trimStr fd.fullName).isEmpty then
    ⟨fd, false, toastEmptyName, false, .validationEmptyName⟩
  else if (trimStr fd.phoneNumber).isEmpty || fd.phoneNumber.length < 19 then
    ⟨fd, false, toastInvalidPhone, false, .validationInvalidPhone⟩
  else if (trimStr fd.password).isEmpty || fd.password.length < 6 then
    ⟨fd, false, toastWeakPassword, false, .validationWeakPassword⟩
  else if submitThrows then
    ⟨fd, false, toastSubmitError, true, .failed⟩
  else
    ⟨initialFormData, false, toastSuccess, true, .success⟩

/-- Embeds `handlePhoneChange` (lines 48 to 51): route the raw input through
`formatPhoneNumber` before storing it in `phoneNumber`. -/
def handlePhoneChange (fd : FormData) (value : Str) : FormData :=
  { fd with phoneNumber := formatPhoneNumber value }

/-- The events of the component that write to `formData`: the two plain field
edits wired through `handleInputChange`, the phone edit wired through
`handlePhoneChange`, and a submit (whose success branch resets the state). -/
inductive Event where
  | editFullName (v : Str)
  | editPassword (v : Str)
  | phoneChange (v : Str)
  | submit (throws : Bool)

/-- One step of the form state under an event. -/
def step (fd : FormData) : Event → FormData
  | .editFullName v => { fd with fullName := v }
  | .editPassword v => { fd with password := v }
  | .phoneChange v => handlePhoneChange fd v
  | .submit throws => (handleSubmit fd throws).formData

/-- The form state reached from the initial state by a list of events. -/
def run (es : List Event) : FormData :=
  es.foldl step initialFormData

/-- Modelled from the spec, table of paragraph 4.1: the expected output
pattern for a digit sequence of zero to thirteen digits, row by row. -/
def phonePatternSpec (d : Str) : Str :=
  if d.length ≤ 2 then
    ['+', '5', '5', ' '] ++ d
  else if d.length ≤ 4 then
    ['+', '5', '5', ' ', '('] ++ d.drop 2 ++ [')']
  else if d.length ≤ 9 then
    ['+', '5', '5', ' ', '('] ++ (d.drop 2).take 2 ++ [')', ' '] ++ d.drop 4
  else
    ['+', '5', '5', ' ', '('] ++ (d.drop 2).take 2 ++ [')', ' ']
      ++ (d.drop 4).take 5 ++ ['-'] ++ (d.drop 9).take 4

/-- C1: for every digit sequence d of length 0 to 13 and every input string
whose digits are d, the formatter returns exactly the pattern of the table in
paragraph 4.1 of the spec; non-digit characters of the input are ignored. -/
theorem C1_formatter_matches_spec_table (s d : Str)
    (hs : extractDigits s = d) (hlen : d.length ≤ 13) :
    formatPhoneNumber s = phonePatternSpec d := by
  subst hs
  rfl

/-- Witness for C1 at the concrete input "(11) 98765-4321". -/
theorem C1_formatter_matches_spec_table_witness :
    extractDigits (['('] ++ ['1', '1', ')', ' ', '9', '8', '7', '6', '5', '-', '4', '3', '2', '1'])
        = ['1', '1', '9', '8', '7', '6', '5', '4', '3', '2', '1']
      ∧ (['1', '1', '9', '8', '7', '6', '5', '4', '3', '2', '1'] : Str).length ≤ 13
      ∧ formatPhoneNumber (['('] ++ ['1', '1', ')', ' ', '9', '8', '7', '6', '5', '-', '4', '3', '2', '1'])
        = phonePatternSpec ['1', '1', '9', '8', '7', '6', '5', '4', '3', '2', '1'] :=
  ⟨by decide, by decide,
    C1_formatter_matches_spec_table _ _ (by decide) (by decide)⟩

/-- C2: with fullName "Maria Silva", phoneNumber "+55 (11) 99999-9999" and
password "abcdef", submission passes all three validation checks, reaches the
submission step, resolves to success, resets every field to empty, and leaves
isLoading false. -/
theorem C2_valid_submission_succeeds_and_resets :
    handleSubmit
      ⟨"Maria Silva".toList, "+55 (11) 99999-9999".toList, "abcdef".toList⟩
      false
      = ⟨initialFormData, false, toastSuccess, true, .success⟩ := by
  decide

/-- C3: on every exit path of the submit handler, success, thrown submission
failure, or any of the three validation rejections, isLoading is false when
the handler returns. -/
theorem C3_isLoading_false_on_every_exit (fd : FormData) (submitThrows : Bool) :
    (handleSubmit fd submitThrows).isLoading = false := by
  unfold handleSubmit
  split <;> [rfl; skip]
  split <;> [rfl; skip]
  split <;> [rfl; skip]
  split <;> rfl

/-- C5: whenever fullName trims to the empty string, submitting emits the
empty-name validation error, leaves the fields unchanged, and never reaches
the submission step, regardless of the other fields. -/
theorem C5_empty_name_always_rejected (fd : FormData) (submitThrows : Bool)
    (h : (trimStr fd.fullName).isEmpty) :
    handleSubmit fd submitThrows
      = ⟨fd, false, toastEmptyName, false, .validationEmptyName⟩ := by
  unfold handleSubmit
  simp [h]

/-- Witness for C5 at a state with a whitespace-only name. -/
theorem C5_empty_name_always_rejected_witness :
    ((trimStr (" ".toList)).isEmpty = true)
      ∧ handleSubmit ⟨" ".toList, "+55 (11) 99999-9999".toList, "abcdef".toList⟩ false
        = ⟨⟨" ".toList, "+55 (11) 99999-9999".toList, "abcdef".toList⟩,
            false, toastEmptyName, false, .validationEmptyName⟩ :=
  ⟨by decide, C5_empty_name_always_rejected _ false (by decide)⟩

/-- C6 counterexample: a state whose phoneNumber is shorter than 19 characters
but whose fullName is empty is rejected with the empty-name error, not the
invalid-phone error, because the name check runs first. -/
theorem C6_short_phone_counterexample :
    ((⟨[], [], "abcdef".toList⟩ : FormData).phoneNumber.length < 19)
      ∧ (handleSubmit ⟨[], [], "abcdef".toList⟩ false).result
          ≠ .validationInvalidPhone := by
  decide

/-- C6 amended: whenever fullName does not trim to empty and phoneNumber is
shorter than 19 characters or trims to empty, submitting emits the
invalid-phone validation error, leaves the fields unchanged, and never reaches
the submission step. -/
theorem C6_short_phone_rejected (fd : FormData) (submitThrows : Bool)
    (hname : ¬ (trimStr fd.fullName).isEmpty)
    (hphone : (trimStr fd.phoneNumber).isEmpty ∨ fd.phoneNumber.length < 19) :
    handleSubmit fd submitThrows
      = ⟨fd, false, toastInvalidPhone, false, .validationInvalidPhone⟩ := by
  unfold handleSubmit
  rcases hphone with h | h <;>
    simp [hname, h]

/-- Witness for C6 at a state with a partially typed phone number. -/
theorem C6_short_phone_rejected_witness :
    (¬ (trimStr ("Maria Silva".toList)).isEmpty
        ∧ ((trimStr ("+55 (11) 9999".toList)).isEmpty
            ∨ ("+55 (11) 9999".toList : Str).length < 19))
      ∧ handleSubmit ⟨"Maria Silva".toList, "+55 (11) 9999".toList, "abcdef".toList⟩ false
        = ⟨⟨"Maria Silva".toList, "+55 (11) 9999".toList, "abcdef".toList⟩,
            false, toastInvalidPhone, false, .validationInvalidPhone⟩ :=
  ⟨⟨by decide, by decide⟩,
    C6_short_phone_rejected _ false (by decide) (by decide)⟩

/-- C7 counterexample: a state whose password is shorter than 6 characters but
whose fullName is empty is rejected with the empty-name error, not the
weak-password error, because the name check runs first. -/
theorem C7_weak_password_counterexample :
    ((⟨[], "+55 (11) 99999-9999".toList, []⟩ : FormData).password.length < 6)
      ∧ (handleSubmit ⟨[], "+55 (11) 99999-9999".toList, []⟩ false).result
          ≠ .validationWeakPassword := by
  decide

/-- C7 amended: whenever fullName does not trim to empty, phoneNumber passes
the phone check, and password is shorter than 6 characters or trims to empty,
submitting emits the weak-password validation error, leaves the fields
unchanged, and never reaches the submission step. -/
theorem C7_weak_password_rejected (fd : FormData) (submitThrows : Bool)
    (hname : ¬ (trimStr fd.fullName).isEmpty)
    (hphone : ¬ ((trimStr fd.phoneNumber).isEmpty ∨ fd.phoneNumber.length < 19))
    (hpass : (trimStr fd.password).isEmpty ∨ fd.password.length < 6) :
    handleSubmit fd submitThrows
      = ⟨fd, false, toastWeakPassword, false, .validationWeakPassword⟩ := by
  unfold handleSubmit
  push_neg at hphone
  rcases hpass with h | h <;>
    simp [hname, hphone.1, hphone.2, h]

/-- Witness for C7 at a state with a five-character password. -/
theorem C7_weak_password_rejected_witness :
    (¬ (trimStr ("Maria Silva".toList)).isEmpty
        ∧ ¬ ((trimStr ("+55 (11) 99999-9999".toList)).isEmpty
              ∨ ("+55 (11) 99999-9999".toList : Str).length < 19)
        ∧ ((trimStr ("abcde".toList)).isEmpty
              ∨ ("abcde".toList : Str).length < 6))
      ∧ handleSubmit ⟨"Maria Silva".toList, "+55 (11) 99999-9999".toList, "abcde".toList⟩ false
        = ⟨⟨"Maria Silva".toList, "+55 (11) 99999-9999".toList, "abcde".toList⟩,
            false, toastWeakPassword, false, .validationWeakPassword⟩ :=
  ⟨⟨by decide, by decide, by decide⟩,
    C7_weak_password_rejected _ false (by decide) (by decide) (by decide)⟩

/-- C8: when every validation check passes and the submission step throws, the
handler emits the generic error toast and the three field values are left
unchanged: no reset occurs on the failure path. -/
theorem C8_failure_preserves_fields (fd : FormData)
    (hname : ¬ (trimStr fd.fullName).isEmpty)
    (hphone : ¬ ((trimStr fd.phoneNumber).isEmpty ∨ fd.phoneNumber.length < 19))
    (hpass : ¬ ((trimStr fd.password).isEmpty ∨ fd.password.length < 6)) :
    handleSubmit fd true = ⟨fd, false, toastSubmitError, true, .failed⟩ := by
  unfold handleSubmit
  push_neg at hphone hpass
  simp [hname, hphone.1, Nat.not_lt.mpr hphone.2, hpass.1, Nat.not_lt.mpr hpass.2]

/-- Witness for C8 at the valid concrete state, with a throwing submission. -/
theorem C8_failure_preserves_fields_witness :
    (¬ (trimStr ("Maria Silva".toList)).isEmpty
        ∧ ¬ ((trimStr ("+55 (11) 99999-9999".toList)).isEmpty
              ∨ ("+55 (11) 99999-9999".toList : Str).length < 19)
        ∧ ¬ ((trimStr ("abcdef".toList)).isEmpty
              ∨ ("abcdef".toList : Str).length < 6))
      ∧ handleSubmit ⟨"Maria Silva".toList, "+55 (11) 99999-9999".toList, "abcdef".toList⟩ true
        = ⟨⟨"Maria Silva".toList, "+55 (11) 99999-9999".toList, "abcdef".toList⟩,
            false, toastSubmitError, true, .failed⟩ :=
  ⟨⟨by decide, by decide, by decide⟩,
    C8_failure_preserves_fields _ (by decide) (by decide) (by decide)⟩

/-- C9 helper: the invariant on the phone field. -/
def PhoneInv (fd : FormData) : Prop :=
  fd.phoneNumber = [] ∨ ∃ s, fd.phoneNumber = formatPhoneNumber s

/-- C9 helper: every event preserves the phone-field invariant. -/
lemma phoneInv_step (fd : FormData) (e : Event) (h : PhoneInv fd) :
    PhoneInv (step fd e) := by
  cases e with
  | editFullName v => exact h
  | editPassword v => exact h
  | phoneChange v => exact Or.inr ⟨v, rfl⟩
  | submit throws =>
    show PhoneInv (handleSubmit fd throws).formData
    unfold handleSubmit
    split
    · exact h
    · split
      · exact h
      · split
        · exact h
        · split
          · exact h
          · exact Or.inl rfl

/-- C9: in every form state reachable from the initial state by field edits,
phone edits and submissions, the phoneNumber field is either empty or a value
produced by the phone formatter. -/
theorem C9_phone_always_formatted (es : List Event) :
    (run es).phoneNumber = [] ∨ ∃ s, (run es).phoneNumber = formatPhoneNumber s := by
  have key : ∀ fd, PhoneInv fd → PhoneInv (es.foldl step fd) := by
    induction es with
    | nil => exact fun fd h => h
    | cons e es ih => exact fun fd h => ih (step fd e) (phoneInv_step fd e h)
  exact key initialFormData (Or.inl rfl)

/-- C10: the formatter output never exceeds 19 characters, and reaches 19
exactly when the input holds at least 13 digits; hence the validator length
check accepts a formatter output exactly in the fully formatted case. -/
theorem C10_format_length_bound (s : Str) :
    (formatPhoneNumber s).length ≤ 19
      ∧ ((formatPhoneNumber s).length = 19 ↔ 13 ≤ (extractDigits s).length) := by
  show (formatDigits (extractDigits s)).length ≤ 19
      ∧ ((formatDigits (extractDigits s)).length = 19 ↔ 13 ≤ (extractDigits s).length)
  generalize extractDigits s = d
  unfold formatDigits
  split
  · rename_i h
    simp only [List.length_append, List.length_take, List.length_drop,
      List.length_cons, List.length_nil]
    omega
  · rename_i h1
    split
    · rename_i h
      simp only [List.length_append, List.length_take, List.length_drop,
        List.length_cons, List.length_nil]
      omega
    · rename_i h2
      split
      · rename_i h
        simp only [List.length_append, List.length_take, List.length_drop,
          List.length_cons, List.length_nil]
        omega
      · rename_i h3
        simp only [List.length_append, List.length_take, List.length_drop,
          List.length_cons, List.length_nil]
        omega

/-- C4 helper: digit extraction distributes over concatenation. -/
lemma extractDigits_append (a b : Str) :
    extractDigits (a ++ b) = extractDigits a ++ extractDigits b := by
  simp [extractDigits]

/-- C4 helper: extracting digits from an all-digit list is the identity. -/
lemma extractDigits_of_digits {l : Str} (h : ∀ c ∈ l, c.isDigit = true) :
    extractDigits l = l :=
  List.filter_eq_self.mpr h

/-- C4 helper: re-extracting the digits of a formatter output prepends the two
digits of the country code 55 and keeps at most eleven of the remaining input
digits, provided the input held at least three digits. -/
lemma extractDigits_formatDigits (d : Str) (hd : ∀ c ∈ d, c.isDigit = true)
    (h3 : 3 ≤ d.length) :
    extractDigits (formatDigits d) = '5' :: '5' :: (d.drop 2).take 11 := by
  have hsub : ∀ (l : Str), (∀ c ∈ l, c ∈ d) → List.filter Char.isDigit l = l :=
    fun l hl => extractDigits_of_digits fun c hc => hd c (hl c hc)
  have hdrop2 : List.filter Char.isDigit (d.drop 2) = d.drop 2 :=
    hsub _ fun c hc => List.mem_of_mem_drop hc
  have hdrop4 : List.filter Char.isDigit (d.drop 4) = d.drop 4 :=
    hsub _ fun c hc => List.mem_of_mem_drop hc
  have htake2 : List.filter Char.isDigit ((d.drop 2).take 2) = (d.drop 2).take 2 :=
    hsub _ fun c hc => List.mem_of_mem_drop (List.mem_of_mem_take hc)
  have htake5 : List.filter Char.isDigit ((d.drop 4).take 5) = (d.drop 4).take 5 :=
    hsub _ fun c hc => List.mem_of_mem_drop (List.mem_of_mem_take hc)
  have htake4 : List.filter Char.isDigit ((d.drop 9).take 4) = (d.drop 9).take 4 :=
    hsub _ fun c hc => List.mem_of_mem_drop (List.mem_of_mem_take hc)
  have cplus : Char.isDigit '+' = false := rfl
  have cfive : Char.isDigit '5' = true := rfl
  have cspace : Char.isDigit ' ' = false := rfl
  have copen : Char.isDigit '(' = false := rfl
  have cclose : Char.isDigit ')' = false := rfl
  have cdash : Char.isDigit '-' = false := rfl
  unfold formatDigits extractDigits
  split
  · omega
  · split
    · rename_i h1 h4
      have ht : (d.drop 2).take 11 = d.drop 2 :=
        List.take_of_length_le (by simp; omega)
      simp [List.filter_cons, List.filter_append, cplus, cfive, cspace, copen,
        cclose, hdrop2, ht]
    · split
      · rename_i h1 h4 h9
        have ht : (d.drop 2).take 11 = d.drop 2 :=
          List.take_of_length_le (by simp; omega)
        have hjoin : (d.drop 2).take 2 ++ d.drop 4 = d.drop 2 := by
          have h := List.take_append_drop 2 (d.drop 2)
          simpa using h
        simp [List.filter_cons, List.filter_append, cplus, cfive, cspace, copen,
          cclose, htake2, hdrop4, ht]
        exact hjoin
      · rename_i h1 h4 h9
        have hsplit : (d.drop 2).take 11
            = (d.drop 2).take 2 ++ ((d.drop 4).take 5 ++ (d.drop 9).take 4) := by
          have t1 := List.take_add (d.drop 2) 2 9
          have t2 := List.take_add (d.drop 4) 5 4
          have hdd : (d.drop 2).drop 2 = d.drop 4 := by simp
          have hdd2 : (d.drop 4).drop 5 = d.drop 9 := by simp
          rw [hdd] at t1
          rw [hdd2] at t2
          calc (d.drop 2).take 11 = (d.drop 2).take (2 + 9) := rfl
            _ = (d.drop 2).take 2 ++ (d.drop 4).take 9 := t1
            _ = (d.drop 2).take 2 ++ (d.drop 4).take (5 + 4) := rfl
            _ = (d.drop 2).take 2 ++ ((d.drop 4).take 5 ++ (d.drop 9).take 4) := by
                rw [t2]
        simp [List.filter_cons, List.filter_append, cplus, cfive, cspace, copen,
          cclose, cdash, htake2, htake5, htake4, hsplit]

/-- C4 helper: rendering the digit sequence recovered from a formatter output
gives the same output as rendering the original digit sequence, provided at
least three digits were present. -/
lemma formatDigits_restore (d : Str) (h3 : 3 ≤ d.length) :
    formatDigits ('5' :: '5' :: (d.drop 2).take 11) = formatDigits d := by
  rcases le_or_lt d.length 4 with h4 | h4
  · have ht : (d.drop 2).take 11 = d.drop 2 :=
      List.take_of_length_le (by simp; omega)
    rw [ht]
    have n1 : ¬ (('5' :: '5' :: d.drop 2 : Str).length ≤ 2) := by
      simp only [List.length_cons, List.length_drop]; omega
    have p2 : ('5' :: '5' :: d.drop 2 : Str).length ≤ 4 := by
      simp only [List.length_cons, List.length_drop]; omega
    unfold formatDigits
    rw [if_neg n1, if_pos p2, if_neg (show ¬ (d.length ≤ 2) by omega), if_pos h4]
    rfl
  · rcases le_or_lt d.length 9 with h9 | h9
    · have ht : (d.drop 2).take 11 = d.drop 2 :=
        List.take_of_length_le (by simp; omega)
      rw [ht]
      have n1 : ¬ (('5' :: '5' :: d.drop 2 : Str).length ≤ 2) := by
        simp only [List.length_cons, List.length_drop]; omega
      have n2 : ¬ (('5' :: '5' :: d.drop 2 : Str).length ≤ 4) := by
        simp only [List.length_cons, List.length_drop]; omega
      have p3 : ('5' :: '5' :: d.drop 2 : Str).length ≤ 9 := by
        simp only [List.length_cons, List.length_drop]; omega
      unfold formatDigits
      rw [if_neg n1, if_neg n2, if_pos p3,
        if_neg (show ¬ (d.length ≤ 2) by omega),
        if_neg (show ¬ (d.length ≤ 4) by omega), if_pos h9]
      have e4 : ('5' :: '5' :: d.drop 2 : Str).drop 4 = d.drop 4 := by
        show (d.drop 2).drop 2 = d.drop 4
        simp
      rw [e4]
      rfl
    · have n1 : ¬ (('5' :: '5' :: (d.drop 2).take 11 : Str).length ≤ 2) := by
        simp only [List.length_cons, List.length_take, List.length_drop]; omega
      have n2 : ¬ (('5' :: '5' :: (d.drop 2).take 11 : Str).length ≤ 4) := by
        simp only [List.length_cons, List.length_take, List.length_drop]; omega
      have n3 : ¬ (('5' :: '5' :: (d.drop 2).take 11 : Str).length ≤ 9) := by
        simp only [List.length_cons, List.length_take, List.length_drop]; omega
      unfold formatDigits
      rw [if_neg n1, if_neg n2, if_neg n3,
        if_neg (show ¬ (d.length ≤ 2) by omega),
        if_neg (show ¬ (d.length ≤ 4) by omega),
        if_neg (show ¬ (d.length ≤ 9) by omega)]
      have q2 : (('5' :: '5' :: (d.drop 2).take 11 : Str).drop 2).take 2
          = (d.drop 2).take 2 := by
        show ((d.drop 2).take 11).take 2 = (d.drop 2).take 2
        rw [List.take_take]
        norm_num
      have q5 : (('5' :: '5' :: (d.drop 2).take 11 : Str).drop 4).take 5
          = (d.drop 4).take 5 := by
        show (((d.drop 2).take 11).drop 2).take 5 = (d.drop 4).take 5
        rw [List.drop_take, List.take_take]
        simp
      have q4 : (('5' :: '5' :: (d.drop 2).take 11 : Str).drop 9).take 4
          = (d.drop 9).take 4 := by
        show (((d.drop 2).take 11).drop 7).take 4 = (d.drop 9).take 4
        rw [List.drop_take, List.take_take]
        simp
      rw [q2, q5, q4]

/-- C4 counterexample: the formatter is not idempotent on every input; on the
empty string the output gains the two digits of the country code 55 on the
second pass. -/
theorem C4_idempotence_counterexample :
    formatPhoneNumber (formatPhoneNumber []) ≠ formatPhoneNumber [] := by
  decide

/-- C4 amended: the formatter is idempotent on every input that holds at least
three digit characters; applying it to its own output returns the same
string. -/
theorem C4_idempotent_with_three_digits (s : Str)
    (h3 : 3 ≤ (extractDigits s).length) :
    formatPhoneNumber (formatPhoneNumber s) = formatPhoneNumber s := by
  have hd : ∀ c ∈ extractDigits s, c.isDigit = true :=
    fun c hc => (List.mem_filter.mp hc).2
  show formatDigits (extractDigits (formatDigits (extractDigits s)))
      = formatDigits (extractDigits s)
  rw [extractDigits_formatDigits _ hd h3, formatDigits_restore _ h3]

/-- Witness for C4 amended at the three-digit input "119". -/
theorem C4_idempotent_with_three_digits_witness :
    3 ≤ (extractDigits ['1', '1', '9']).length
      ∧ formatPhoneNumber (formatPhoneNumber ['1', '1', '9'])
          = formatPhoneNumber ['1', '1', '9'] :=
  ⟨by decide, C4_idempotent_with_three_digits _ (by decide)⟩
